import Mathlib

/-!
Verification of the TrovaTask push-notification dispatch engine.

The repository ships several successive revisions of the same small engine;
per its README the current program is the v19.0 ULTRA revision, consisting of
src/config.js (v19.0), the v19.0 document of src/utils.js (RateLimiter,
ConcurrencyLimiter, fastRetry, formatNotification) and the v19.0 document of
the notification handler (sendToDevice, handleNotification).  The definitions
below are a shallow embedding of that revision.

Modelling conventions:
- JavaScript exceptions are modelled with Except JsError; a thrown error is
  Except.error, a normal return is Except.ok.
- Wall-clock time (setTimeout delays, Date.now durations, the backoff sleeps
  and the rate limiter's token arithmetic) is not modelled; sleeps are no-ops
  on the data path.  The race between Promise.allSettled and the early
  -response timer is resolved by an explicit boolean parameter timerWins.
- External collaborators (Appwrite messaging.createPush, the Firestore
  document fetch and the Firestore device-delete update) are oracles passed
  in as functions returning Except values.
- The concurrency limiter and rate limiter are identity wrappers on the data
  path (run returns the wrapped function's result or rethrows its error);
  their scheduling behaviour is modelled separately as a labelled transition
  system (ExecState / ExecStep below).
-/

/-- A JavaScript error code as inspected by the source: either a numeric HTTP
code (err.code === 404) or a symbolic provider string
(err.code === 'messaging/registration-token-not-registered'). -/
inductive ErrCode where
  | num (n : Nat)
  | str (s : String)
deriving DecidableEq

/-- A JavaScript Error value as the source inspects it: an optional code and a
message string. -/
structure JsError where
  code : Option ErrCode
  message : String
deriving DecidableEq

/-- JavaScript String.prototype.includes, on the underlying character list. -/
def jsIncludes (s sub : String) : Bool :=
  decide (sub.data <:+: s.data)

/-- JavaScript falsiness for an optional string: undefined/null and the empty
string are falsy (used for the !appwriteUserId and targetDeviceId checks). -/
def jsFalsyStr (s : Option String) : Bool :=
  match s with
  | none => true
  | some s => s == ""

namespace config

/-- src/config.js (v19.0): MAX_RETRIES. -/
def MAX_RETRIES : Nat := 2

/-- src/config.js (v19.0): INITIAL_RETRY_DELAY in ms (timing, not used on the
data path). -/
def INITIAL_RETRY_DELAY : Nat := 50

/-- src/config.js (v19.0): EARLY_RESPONSE_THRESHOLD in ms. -/
def EARLY_RESPONSE_THRESHOLD : Nat := 150

/-- src/config.js (v19.0): MAX_CONCURRENT_REQUESTS. -/
def MAX_CONCURRENT_REQUESTS : Nat := 50

/-- src/config.js (v19.0): RATE_LIMIT_PER_SECOND. -/
def RATE_LIMIT_PER_SECOND : Nat := 750

/-- src/config.js (v19.0): MAX_TEXT_LENGTH. -/
def MAX_TEXT_LENGTH : Nat := 100

/-- src/config.js (v19.0): DEEP_LINK_SCHEME default. -/
def DEEP_LINK_SCHEME : String := "trovatask"

end config

/-- The permanent-error classification of fastRetry (utils.js v19.0):
error.code === 404 || 400 || 401 || 403. -/
def isPermanentError (e : JsError) : Bool :=
  e.code == some (.num 404) || e.code == some (.num 400) ||
  e.code == some (.num 401) || e.code == some (.num 403)

/-- Loop body of fastRetry (utils.js v19.0), recursing on the number of
retries still allowed (remaining = maxRetries - attempt, so the JS test
attempt < maxRetries is remaining > 0).  The call oracle gives the result of
the attempt-th invocation.  Returns the final result together with the number
of invocations made.  At remaining = 0 a failing call throws whether or not
the error is permanent, exactly as in the source's last iteration. -/
def fastRetryAux (call : Nat → Except JsError α) (attempt : Nat) :
    Nat → Except JsError α × Nat
  | 0 =>
    match call attempt with
    | .ok v => (.ok v, 1)
    | .error e => (.error e, 1)
  | r + 1 =>
    match call attempt with
    | .ok v => (.ok v, 1)
    | .error e =>
      if isPermanentError e then (.error e, 1)
      else
        let rest := fastRetryAux call (attempt + 1) r
        (rest.1, rest.2 + 1)

/-- fastRetry (utils.js v19.0): for attempt in 0..maxRetries, invoke the call;
on a permanent error (404/400/401/403) rethrow immediately; on a retryable
error sleep and retry while attempts remain, else rethrow. -/
def fastRetry (call : Nat → Except JsError α) (maxRetries : Nat) :
    Except JsError α × Nat :=
  fastRetryAux call 0 maxRetries

/-- The Appwrite message document returned by messaging.createPush; the source
reads its id field (message.$id). -/
structure PushMessage where
  id : String
deriving DecidableEq

/-- One registered device's Firestore record as read by the source:
appwriteUserId (the provider routing handle), deviceName and model. -/
structure DeviceData where
  appwriteUserId : Option String
  deviceName : Option String
  model : Option String
deriving DecidableEq

/-- The notification payload built once per event and passed to createPush. -/
structure NotificationPayload where
  title : String
  body : String
  data : List (String × String)
deriving DecidableEq

/-- The per-device result object produced by sendToDevice (v19.0).  The
duration field of the source is wall-clock time and is not modelled.  A field
the source leaves absent on an object is modelled as none / false. -/
structure DeviceOutcome where
  deviceId : String
  deviceName : String
  model : String
  success : Bool
  messageId : Option String
  error : Option String
  autoCleanup : Bool
deriving DecidableEq

/-- Instrumented result of one sendToDevice call: the settled value (ok) or
thrown error, the number of createPush invocations made, and whether a
Firestore delete of the device was issued. -/
structure SendTrace where
  result : Except JsError DeviceOutcome
  pushCalls : Nat
  deleteIssued : Bool

/-- The device-gone classification in sendToDevice's catch block (v19.0):
err.code === 404, the two symbolic Firebase token codes, or the message
containing 'could not be found'. -/
def isDeviceNotFound (err : JsError) : Bool :=
  err.code == some (.num 404) ||
  err.code == some (.str "messaging/registration-token-not-registered") ||
  err.code == some (.str "messaging/invalid-registration-token") ||
  jsIncludes err.message "could not be found"

/-- sendToDevice (notification handler v19.0).  Steps: if the device has no
appwriteUserId, return a failure outcome with no provider call; otherwise send
the push through the concurrency limiter, rate limiter and fastRetry (the two
limiters pass the wrapped result through on the data path); on success return
the message id; in the catch block, if the error classifies as device-gone,
attempt the Firestore delete - on delete success return a success=false
outcome with autoCleanup=true, on delete failure fall through (the delete
error is only logged) to the generic failure outcome; any other error yields
the generic failure outcome.  The push oracle receives the payload and the
retry attempt index. -/
def sendToDevice (deviceId : String) (deviceData : DeviceData)
    (payload : NotificationPayload)
    (push : NotificationPayload → Nat → Except JsError PushMessage)
    (dbDelete : Except JsError Unit) : SendTrace :=
  let deviceName := deviceData.deviceName.getD "Unknown"
  let model := deviceData.model.getD "Unknown"
  if jsFalsyStr deviceData.appwriteUserId then
    { result := .ok { deviceId := deviceId, deviceName := deviceName, model := model,
                      success := false, messageId := none,
                      error := some "No Appwrite User ID", autoCleanup := false },
      pushCalls := 0, deleteIssued := false }
  else
    match fastRetry (push payload) config.MAX_RETRIES with
    | (.ok message, n) =>
      { result := .ok { deviceId := deviceId, deviceName := deviceName, model := model,
                        success := true, messageId := some message.id,
                        error := none, autoCleanup := false },
        pushCalls := n, deleteIssued := false }
    | (.error err, n) =>
      if isDeviceNotFound err then
        match dbDelete with
        | .ok _ =>
          { result := .ok { deviceId := deviceId, deviceName := deviceName, model := model,
                            success := false, messageId := none,
                            error := some "Device removed (invalid token)",
                            autoCleanup := true },
            pushCalls := n, deleteIssued := true }
        | .error _ =>
          { result := .ok { deviceId := deviceId, deviceName := deviceName, model := model,
                            success := false, messageId := none,
                            error := some err.message, autoCleanup := false },
            pushCalls := n, deleteIssued := true }
      else
        { result := .ok { deviceId := deviceId, deviceName := deviceName, model := model,
                          success := false, messageId := none,
                          error := some err.message, autoCleanup := false },
          pushCalls := n, deleteIssued := false }

/-- The inbound event payload as destructured by handleNotification (v19.0).
Fields the source defaults on destructuring (text, type) or stringifies with a
fallback (messageId, senderId) are Options; recipientId and chatId are the
required fields validated by the entry point. -/
structure EventData where
  recipientId : String
  senderId : Option String
  text : Option String
  chatId : String
  type : Option String
  messageId : Option String
  deviceId : Option String
deriving DecidableEq

/-- The recipient's Firestore user document as read by handleNotification:
the nested devices map (Object.entries order preserved as an association
list) and the flattened entries stored under top-level 'devices.<id>' keys
(modelled with the 'devices.' prefix already stripped, as the source strips
it). -/
structure UserData where
  devices : List (String × DeviceData)
  flat : List (String × DeviceData)
deriving DecidableEq

/-- The sender's Firestore user document (fields used for the sender name). -/
structure SenderData where
  fullName : Option String
  username : Option String
deriving DecidableEq

/-- Device-map parsing of handleNotification (v19.0): use userData.devices,
falling back to the flattened 'devices.'-prefixed keys when it is empty. -/
def parsedDevices (u : UserData) : List (String × DeviceData) :=
  if u.devices.isEmpty then u.flat else u.devices

/-- Target-device narrowing of handleNotification (v19.0): if targetDeviceId
is truthy and present in the device map, narrow to that single device;
otherwise (absent key or falsy id) keep the map unchanged. -/
def resolveDevices (u : UserData) (targetDeviceId : Option String) :
    List (String × DeviceData) :=
  let devicesMap := parsedDevices u
  match targetDeviceId with
  | none => devicesMap
  | some tid =>
    if tid == "" then devicesMap
    else
      match devicesMap.lookup tid with
      | some dd => [(tid, dd)]
      | none => devicesMap

/-- Sender-name fallback chain of handleNotification:
senderDoc?.data()?.fullName || senderDoc?.data()?.username || 'Someone'. -/
def senderNameOf (sd : Option SenderData) : String :=
  match sd with
  | none => "Someone"
  | some d =>
    if jsFalsyStr d.fullName then
      if jsFalsyStr d.username then "Someone" else d.username.getD ""
    else d.fullName.getD ""

/-- Payload construction of handleNotification (v19.0): truncate the text to
MAX_TEXT_LENGTH, title is the sender name, body is the text for type 'text'
and an attachment marker otherwise, plus the string-typed data map.  The
timestamp comes from the wall clock and is passed in as nowIso. -/
def buildPayload (event : EventData) (senderName nowIso : String) :
    NotificationPayload :=
  let type := event.type.getD "text"
  let text := event.text.getD "New message"
  let truncatedText :=
    if text.length > config.MAX_TEXT_LENGTH then
      (text.take (config.MAX_TEXT_LENGTH - 3)) ++ "..."
    else text
  { title := senderName,
    body := if type == "text" then truncatedText else "📎 " ++ type,
    data := [("type", "chat_message"),
             ("chatId", event.chatId),
             ("messageId", event.messageId.getD ""),
             ("senderId", event.senderId.getD ""),
             ("senderName", senderName),
             ("messageType", type),
             ("timestamp", nowIso),
             ("click_action", config.DEEP_LINK_SCHEME ++ "://chat/" ++ event.chatId)] }

/-- The mapping handleNotification applies to each settled promise:
fulfilled promises contribute their value, rejected ones the fallback
object { success:false, deviceName:'Unknown', model:'Unknown' }. -/
def settleValue (r : Except JsError DeviceOutcome) : DeviceOutcome :=
  match r with
  | .ok v => v
  | .error _ =>
    { deviceId := "", deviceName := "Unknown", model := "Unknown", success := false,
      messageId := none, error := none, autoCleanup := false }

/-- The list of per-device results of the fan-out: one sendToDevice task per
device entry, settled as by Promise.allSettled.  The push and delete oracles
are per deviceId. -/
def notificationResults (entries : List (String × DeviceData))
    (payload : NotificationPayload)
    (push : String → NotificationPayload → Nat → Except JsError PushMessage)
    (dbDelete : String → Except JsError Unit) : List DeviceOutcome :=
  (entries.map
    (fun e => (sendToDevice e.1 e.2 payload (push e.1) (dbDelete e.1)).result)).map
    settleValue

/-- The summary the early-response branch computes in the background over the
same (uncancelled) task list after the caller has been answered: counts of
fulfilled successes, fulfilled failures and auto-cleaned devices, logged
against the scheduled-device total. -/
structure BackgroundReport where
  successful : Nat
  failed : Nat
  autoCleanedCount : Nat
  total : Nat
deriving DecidableEq

/-- The background continuation of the early-response branch (v19.0): settle
every scheduled task and tally the outcomes. -/
def earlyReport (entries : List (String × DeviceData))
    (payload : NotificationPayload)
    (push : String → NotificationPayload → Nat → Except JsError PushMessage)
    (dbDelete : String → Except JsError Unit) : BackgroundReport :=
  let rs := notificationResults entries payload push dbDelete
  { successful := rs.countP (·.success),
    failed := rs.countP (fun r => !r.success),
    autoCleanedCount := rs.countP (·.autoCleanup),
    total := entries.length }

/-- The three response shapes of handleNotification (v19.0): the no-devices
normal result (status 'no_devices'), the early acknowledgment (status
'delivering') and the full result (status 'delivered').  Wall-clock fields
(earlyResponseTime, totalDuration) are not modelled. -/
inductive HandlerResult where
  | noDevices (success : Bool) (message : String)
  | delivering (success : Bool) (devices : Nat) (message : String)
  | delivered (success : Bool) (successful failed autoCleanedCount devices : Nat)
      (deviceResults : List DeviceOutcome)

/-- handleNotification (v19.0).  userFetch is the Firestore document fetch for
the recipient (throwing fetch = error, missing document = ok none); senderDoc
is the sender fetch after its .catch(() => null); timerWins resolves the race
between Promise.allSettled of the device tasks and the early-response timer.
The outer try/catch of the source logs and rethrows, so errors propagate
unchanged.  The early branch also returns the background report computed over
the same, uncancelled task list (second component). -/
def handleNotification (event : EventData)
    (userFetch : Except JsError (Option UserData))
    (senderDoc : Option SenderData) (nowIso : String)
    (push : String → NotificationPayload → Nat → Except JsError PushMessage)
    (dbDelete : String → Except JsError Unit) (timerWins : Bool) :
    Except JsError (HandlerResult × Option BackgroundReport) :=
  match userFetch with
  | .error e => .error e
  | .ok none => .error { code := none, message := "Recipient not found in Firestore" }
  | .ok (some userData) =>
    let deviceEntries := resolveDevices userData event.deviceId
    if deviceEntries.length == 0 then
      .ok (.noDevices true "No devices to send notification to", none)
    else
      let senderName := senderNameOf senderDoc
      let payload := buildPayload event senderName nowIso
      if timerWins then
        .ok (.delivering true deviceEntries.length
               ("Delivering to " ++ toString deviceEntries.length ++
                 " device(s) in background"),
             some (earlyReport deviceEntries payload push dbDelete))
      else
        let rs := notificationResults deviceEntries payload push dbDelete
        let successful := rs.countP (·.success)
        let failed := rs.countP (fun r => !r.success)
        let autoCleanedCount := rs.countP (·.autoCleanup)
        .ok (.delivered (decide (0 < successful)) successful failed autoCleanedCount
              deviceEntries.length rs, none)

/-- Interleaved-execution state of ConcurrencyLimiter (utils.js v19.0):
running is the this.running counter; queue holds the parked waiters' resolve
callbacks in FIFO order (push on await, shift on release); ready holds tasks
at the while-condition check (newly arrived or just woken); active holds
tasks inside the try block, i.e. holding a concurrency slot; finished holds
completed tasks.  Tasks are identified by arbitrary Nat ids. -/
structure ExecState where
  max : Nat
  running : Nat
  ready : List Nat
  queue : List Nat
  active : List Nat
  finished : List Nat
deriving DecidableEq

/-- One scheduler step of ConcurrencyLimiter.run (utils.js v19.0):
- enter: a task at the while-check sees running < maxConcurrent, increments
  running and starts executing (acquires a slot);
- park: a task at the while-check sees running >= maxConcurrent and awaits a
  promise whose resolve is pushed onto the queue;
- finish / finishWake: a running task's body completes (ok = true) or throws
  (ok = false); the finally block decrements running and shifts the queue,
  resolving exactly the first waiter (if any), which returns to the
  while-check.  The result/error of the body is returned/rethrown to the
  caller and does not affect slot bookkeeping. -/
inductive ExecStep : ExecState → ExecState → Prop where
  | enter (s : ExecState) (i : Nat) (r1 r2 : List Nat)
      (hready : s.ready = r1 ++ i :: r2) (hlt : s.running < s.max) :
      ExecStep s { s with running := s.running + 1, ready := r1 ++ r2,
                          active := s.active ++ [i] }
  | park (s : ExecState) (i : Nat) (r1 r2 : List Nat)
      (hready : s.ready = r1 ++ i :: r2) (hge : s.max ≤ s.running) :
      ExecStep s { s with ready := r1 ++ r2, queue := s.queue ++ [i] }
  | finish (s : ExecState) (i : Nat) (a1 a2 : List Nat) (ok : Bool)
      (hactive : s.active = a1 ++ i :: a2) (hq : s.queue = []) :
      ExecStep s { s with running := s.running - 1, active := a1 ++ a2,
                          finished := s.finished ++ [i] }
  | finishWake (s : ExecState) (i : Nat) (a1 a2 : List Nat) (j : Nat)
      (rest : List Nat) (ok : Bool)
      (hactive : s.active = a1 ++ i :: a2) (hq : s.queue = j :: rest) :
      ExecStep s { s with running := s.running - 1, active := a1 ++ a2,
                          finished := s.finished ++ [i], queue := rest,
                          ready := s.ready ++ [j] }

/-- A fresh ConcurrencyLimiter (running = 0, empty queue) together with a set
of tasks about to call run. -/
def initExec (max : Nat) (tasks : List Nat) : ExecState :=
  { max := max, running := 0, ready := tasks, queue := [], active := [],
    finished := [] }

/-- The inductive invariant of the limiter: the running counter equals the
number of slot-holding tasks, and never exceeds maxConcurrent. -/
def ExecInv (s : ExecState) : Prop :=
  s.running = s.active.length ∧ s.active.length ≤ s.max

/-- The list of settled per-device outcomes of one dispatch invocation, as
aggregated by handleNotification on both the early (background) and the full
path: the fan-out over the resolved device set with the payload built from
the event. -/
def dispatchOutcomes (event : EventData) (userData : UserData)
    (senderDoc : Option SenderData) (nowIso : String)
    (push : String → NotificationPayload → Nat → Except JsError PushMessage)
    (dbDelete : String → Except JsError Unit) : List DeviceOutcome :=
  notificationResults (resolveDevices userData event.deviceId)
    (buildPayload event (senderNameOf senderDoc) nowIso) push dbDelete

/-- Concrete test event (no target device) used to instantiate theorems. -/
def eventW : EventData :=
  { recipientId := "user-1", senderId := some "user-2", text := some "hello",
    chatId := "chat-1", type := some "text", messageId := some "msg-7",
    deviceId := none }

/-- Concrete registered device used to instantiate theorems. -/
def deviceW : DeviceData :=
  { appwriteUserId := some "aw-1", deviceName := some "Pixel 8", model := some "Pixel" }

/-- Concrete recipient document with exactly one registered device. -/
def userW : UserData := { devices := [("dev1", deviceW)], flat := [] }

/-- Push oracle that always fails with a retryable 500. -/
def pushFail : String → NotificationPayload → Nat → Except JsError PushMessage :=
  fun _ _ _ => .error { code := some (.num 500), message := "Internal Server Error" }

/-- Delete oracle that always succeeds. -/
def delOk : String → Except JsError Unit := fun _ => .ok ()

/-- A permanent device-gone provider error (Appwrite 404). -/
def errGone : JsError :=
  { code := some (.num 404),
    message := "User with the requested ID could not be found." }

/-- Call oracle that fails with a retryable 500 on attempts 0 and 1 and
succeeds on attempt 2. -/
def callW : Nat → Except JsError PushMessage := fun k =>
  if k < 2 then .error { code := some (.num 500), message := "Internal Server Error" }
  else .ok { id := "m1" }

/-- The limiter state reached from initExec 1 [0, 1] after task 0 enters:
one active slot-holding task, task 1 still at the while-check. -/
def execW : ExecState :=
  { max := 1, running := 1, ready := [1], queue := [], active := [0],
    finished := [] }

theorem execStep_preserves_inv {s u : ExecState} (hstep : ExecStep s u)
    (hinv : ExecInv s) : ExecInv u := by
  obtain ⟨h1, h2⟩ := hinv
  cases hstep <;> simp_all [ExecInv] <;> omega

theorem execStep_queue_fifo {s u : ExecState} (hstep : ExecStep s u) :
    u.queue = s.queue ∨ (∃ i, u.queue = s.queue ++ [i]) ∨
    (∃ j, s.queue = j :: u.queue ∧ j ∈ u.ready) := by
  cases hstep with
  | enter i r1 r2 hready hlt => exact Or.inl rfl
  | park i r1 r2 hready hge => exact Or.inr (Or.inl ⟨i, rfl⟩)
  | finish i a1 a2 ok hactive hq => exact Or.inl rfl
  | finishWake i a1 a2 j rest ok hactive hq =>
    exact Or.inr (Or.inr ⟨j, by simp [hq], by simp⟩)

theorem countP_success_split (l : List DeviceOutcome) :
    l.countP (·.success) + l.countP (fun r => !r.success) = l.length := by
  induction l with
  | nil => simp
  | cons a t ih =>
    by_cases h : a.success <;> simp [List.countP_cons, h] <;> omega

theorem fastRetryAux_calls_le {α : Type} (call : Nat → Except JsError α) :
    ∀ remaining attempt, (fastRetryAux call attempt remaining).2 ≤ remaining + 1 := by
  intro remaining
  induction remaining with
  | zero =>
    intro attempt
    cases h : call attempt <;> simp [fastRetryAux, h]
  | succ r ih =>
    intro attempt
    cases h : call attempt with
    | ok v => simp [fastRetryAux, h]
    | error e =>
      by_cases hp : isPermanentError e <;> simp [fastRetryAux, h, hp]
      have := ih (attempt + 1)
      omega

theorem fastRetryAux_transient_then_ok {α : Type} (call : Nat → Except JsError α) (v : α) :
    ∀ remaining attempt,
      (∀ k, attempt ≤ k → k < attempt + remaining →
        ∃ e, call k = .error e ∧ isPermanentError e = false) →
      call (attempt + remaining) = .ok v →
      fastRetryAux call attempt remaining = (.ok v, remaining + 1) := by
  intro remaining
  induction remaining with
  | zero =>
    intro attempt htrans hok
    rw [Nat.add_zero] at hok
    simp [fastRetryAux, hok]
  | succ r ih =>
    intro attempt htrans hok
    obtain ⟨e, hcall, hperm⟩ := htrans attempt (Nat.le_refl _) (by omega)
    have hrec := ih (attempt + 1)
      (fun k hk1 hk2 => htrans k (by omega) (by omega))
      (by rw [show attempt + 1 + r = attempt + (r + 1) by omega]; exact hok)
    simp [fastRetryAux, hcall, hperm, hrec]

/-- C2: a call whose first attempt fails with a permanent provider error
(code 404, 400, 401 or 403) is invoked exactly once by fastRetry, and the
error is re-raised unchanged with no retry. -/
theorem fastRetry_permanent_single_call {α : Type} (call : Nat → Except JsError α)
    (maxRetries : Nat) (e : JsError) (hcall : call 0 = .error e)
    (hperm : e.code = some (.num 404) ∨ e.code = some (.num 400) ∨
             e.code = some (.num 401) ∨ e.code = some (.num 403)) :
    fastRetry call maxRetries = (.error e, 1) := by
  have hp : isPermanentError e = true := by
    rcases hperm with h | h | h | h <;> simp [isPermanentError, h]
  cases maxRetries <;> simp [fastRetry, fastRetryAux, hcall, hp]

/-- Witness for C2: a 404 on the first attempt under the configured
MAX_RETRIES gives exactly one invocation. -/
theorem fastRetry_permanent_single_call_witness :
    fastRetry (fun _ => (.error errGone : Except JsError PushMessage))
        config.MAX_RETRIES = (.error errGone, 1) :=
  fastRetry_permanent_single_call _ config.MAX_RETRIES errGone rfl (Or.inl rfl)

/-- C5: fastRetry invokes the call at most maxRetries + 1 times; and a call
that fails with a retryable (non-permanent) error on each of the first
maxRetries attempts and succeeds on attempt maxRetries is invoked exactly
maxRetries + 1 times, with the success value returned. -/
theorem fastRetry_attempt_bound {α : Type} (call : Nat → Except JsError α)
    (maxRetries : Nat) (v : α) :
    (fastRetry call maxRetries).2 ≤ maxRetries + 1 ∧
    ((∀ k, k < maxRetries → ∃ e, call k = .error e ∧ isPermanentError e = false) →
      call maxRetries = .ok v →
      fastRetry call maxRetries = (.ok v, maxRetries + 1)) := by
  constructor
  · exact fastRetryAux_calls_le call maxRetries 0
  · intro htrans hok
    exact fastRetryAux_transient_then_ok call v maxRetries 0
      (fun k _ hk2 => htrans k (by omega)) (by simpa using hok)

/-- Witness for C5: two retryable 500s followed by a success gives three
invocations and the success value. -/
theorem fastRetry_attempt_bound_witness :
    (fastRetry callW 2).2 ≤ 2 + 1 ∧
    fastRetry callW 2 = (.ok { id := "m1" }, 2 + 1) := by
  have h := fastRetry_attempt_bound callW 2 { id := "m1" }
  refine ⟨h.1, h.2 ?_ ?_⟩
  · intro k hk
    exact ⟨{ code := some (.num 500), message := "Internal Server Error" },
      by simp [callW, hk], rfl⟩
  · simp [callW]

/-- C3: sendToDevice never throws past its own boundary: for every device,
payload and behaviour of the push and delete oracles, the settled result is a
DeviceOutcome value, never a propagated error. -/
theorem sendToDevice_never_throws (deviceId : String) (dd : DeviceData)
    (payload : NotificationPayload)
    (push : NotificationPayload → Nat → Except JsError PushMessage)
    (dbDelete : Except JsError Unit) :
    ∃ outcome : DeviceOutcome,
      (sendToDevice deviceId dd payload push dbDelete).result = .ok outcome := by
  unfold sendToDevice
  dsimp only
  split
  · exact ⟨_, rfl⟩
  · split
    · exact ⟨_, rfl⟩
    · split
      · split
        · exact ⟨_, rfl⟩
        · exact ⟨_, rfl⟩
      · exact ⟨_, rfl⟩

/-- C9: a device without an appwriteUserId routing handle yields an immediate
failure outcome with error 'No Appwrite User ID', zero provider calls and no
delete. -/
theorem sendToDevice_missing_route (deviceId : String) (dd : DeviceData)
    (payload : NotificationPayload)
    (push : NotificationPayload → Nat → Except JsError PushMessage)
    (dbDelete : Except JsError Unit)
    (h : jsFalsyStr dd.appwriteUserId = true) :
    sendToDevice deviceId dd payload push dbDelete =
      { result := .ok { deviceId := deviceId,
                        deviceName := dd.deviceName.getD "Unknown",
                        model := dd.model.getD "Unknown", success := false,
                        messageId := none, error := some "No Appwrite User ID",
                        autoCleanup := false },
        pushCalls := 0, deleteIssued := false } := by
  simp [sendToDevice, h]

/-- Witness for C9: a concrete device record with no appwriteUserId. -/
theorem sendToDevice_missing_route_witness :
    sendToDevice "dev1"
        { appwriteUserId := none, deviceName := some "Pixel 8", model := none }
        { title := "t", body := "b", data := [] }
        (fun _ _ => .error { code := none, message := "never called" })
        (.ok ()) =
      { result := .ok { deviceId := "dev1", deviceName := "Pixel 8",
                        model := "Unknown", success := false, messageId := none,
                        error := some "No Appwrite User ID", autoCleanup := false },
        pushCalls := 0, deleteIssued := false } :=
  sendToDevice_missing_route "dev1" _ _ _ _ rfl

/-- C6: in every state reachable from a fresh ConcurrencyLimiter, the number
of tasks holding an unreleased concurrency slot never exceeds maxConcurrent
and always equals the running counter (finish steps cover both normal and
throwing task bodies); moreover every step leaves the waiter queue unchanged,
appends exactly one new waiter, or releases exactly the queue head back to
the while-check (FIFO release of one waiter per slot release). -/
theorem ConcurrencyLimiter_slot_bound (max : Nat) (tasks : List Nat)
    (s : ExecState)
    (hreach : Relation.ReflTransGen ExecStep (initExec max tasks) s) :
    (s.active.length ≤ s.max ∧ s.running = s.active.length) ∧
    ∀ u, ExecStep s u →
      u.queue = s.queue ∨ (∃ i, u.queue = s.queue ++ [i]) ∨
      (∃ j, s.queue = j :: u.queue ∧ j ∈ u.ready) := by
  have hinv : ExecInv s := by
    induction hreach with
    | refl => exact ⟨rfl, by simp [initExec]⟩
    | tail hsteps hstep ih => exact execStep_preserves_inv hstep ih
  exact ⟨⟨hinv.2, hinv.1⟩, fun u hu => execStep_queue_fifo hu⟩

/-- Witness for C6: with maxConcurrent = 1 and two tasks, after task 0
acquires the slot the reached state holds one active task within the bound,
with the running counter in agreement. -/
theorem ConcurrencyLimiter_slot_bound_witness :
    (execW.active.length ≤ execW.max ∧ execW.running = execW.active.length) :=
  (ConcurrencyLimiter_slot_bound 1 [0, 1] _
    (Relation.ReflTransGen.single
      (ExecStep.enter (initExec 1 [0, 1]) 0 [] [1] rfl (by decide)))).1

/-- C1: an invocation whose resolved device set is empty returns the normal
no-devices result (success true, status 'no_devices', no outcomes) rather
than an error - the zero-device completion of the dispatch. -/
theorem handleNotification_empty_devices_normal (event : EventData)
    (userData : UserData) (senderDoc : Option SenderData) (nowIso : String)
    (push : String → NotificationPayload → Nat → Except JsError PushMessage)
    (dbDelete : String → Except JsError Unit) (timerWins : Bool)
    (h : resolveDevices userData event.deviceId = []) :
    handleNotification event (.ok (some userData)) senderDoc nowIso push
        dbDelete timerWins
      = .ok (.noDevices true "No devices to send notification to", none) := by
  simp [handleNotification, h]

/-- Witness for C1: a recipient document with no registered devices. -/
theorem handleNotification_empty_devices_normal_witness :
    handleNotification eventW (.ok (some { devices := [], flat := [] })) none
        "2025-10-24T00:00:00Z" pushFail delOk false
      = .ok (.noDevices true "No devices to send notification to", none) :=
  handleNotification_empty_devices_normal eventW { devices := [], flat := [] }
    none "2025-10-24T00:00:00Z" pushFail delOk false rfl

/-- C4: when the early-response timer wins the race, the coordinator returns
the Delivering acknowledgment whose device count is exactly the number of
scheduled device tasks, and the uncancelled tasks all run to completion in
the background: the background report is the tally over the full outcome
list, one outcome per scheduled device. -/
theorem handleNotification_early_response (event : EventData)
    (userData : UserData) (senderDoc : Option SenderData) (nowIso : String)
    (push : String → NotificationPayload → Nat → Except JsError PushMessage)
    (dbDelete : String → Except JsError Unit)
    (h : resolveDevices userData event.deviceId ≠ []) :
    handleNotification event (.ok (some userData)) senderDoc nowIso push
        dbDelete true
      = .ok (.delivering true (resolveDevices userData event.deviceId).length
              ("Delivering to " ++
                toString (resolveDevices userData event.deviceId).length ++
                " device(s) in background"),
             some (earlyReport (resolveDevices userData event.deviceId)
               (buildPayload event (senderNameOf senderDoc) nowIso) push dbDelete)) ∧
    (dispatchOutcomes event userData senderDoc nowIso push dbDelete).length
      = (resolveDevices userData event.deviceId).length ∧
    (earlyReport (resolveDevices userData event.deviceId)
        (buildPayload event (senderNameOf senderDoc) nowIso) push dbDelete).successful +
      (earlyReport (resolveDevices userData event.deviceId)
        (buildPayload event (senderNameOf senderDoc) nowIso) push dbDelete).failed
      = (resolveDevices userData event.deviceId).length := by
  have hz : ¬ (resolveDevices userData event.deviceId).length = 0 := by
    simpa [List.length_eq_zero] using h
  refine ⟨by simp [handleNotification, hz], ?_, ?_⟩
  · simp [dispatchOutcomes, notificationResults]
  · simp only [earlyReport]
    rw [countP_success_split]
    simp [notificationResults]

/-- Witness for C4: one scheduled device, timer wins; the acknowledgment
reports one device and the background tally covers that one task. -/
theorem handleNotification_early_response_witness :
    handleNotification eventW (.ok (some userW)) none "2025-10-24T00:00:00Z"
        pushFail delOk true
      = .ok (.delivering true (resolveDevices userW eventW.deviceId).length
              ("Delivering to " ++
                toString (resolveDevices userW eventW.deviceId).length ++
                " device(s) in background"),
             some (earlyReport (resolveDevices userW eventW.deviceId)
               (buildPayload eventW (senderNameOf none) "2025-10-24T00:00:00Z")
               pushFail delOk)) ∧
    (dispatchOutcomes eventW userW none "2025-10-24T00:00:00Z" pushFail delOk).length
      = (resolveDevices userW eventW.deviceId).length ∧
    (earlyReport (resolveDevices userW eventW.deviceId)
        (buildPayload eventW (senderNameOf none) "2025-10-24T00:00:00Z")
        pushFail delOk).successful +
      (earlyReport (resolveDevices userW eventW.deviceId)
        (buildPayload eventW (senderNameOf none) "2025-10-24T00:00:00Z")
        pushFail delOk).failed
      = (resolveDevices userW eventW.deviceId).length :=
  handleNotification_early_response eventW userW none "2025-10-24T00:00:00Z"
    pushFail delOk (by decide)

/-- C10: on the full-results path, the returned result is the delivered
completion (not an error) whose top-level success flag is true exactly when
at least one per-device outcome succeeded; and when every device fails the
result still comes back normally with success = false and failed equal to
the device count. -/
theorem handleNotification_completed_success_iff (event : EventData)
    (userData : UserData) (senderDoc : Option SenderData) (nowIso : String)
    (push : String → NotificationPayload → Nat → Except JsError PushMessage)
    (dbDelete : String → Except JsError Unit)
    (h : resolveDevices userData event.deviceId ≠ []) :
    handleNotification event (.ok (some userData)) senderDoc nowIso push
        dbDelete false
      = .ok (.delivered
              (decide (0 < (dispatchOutcomes event userData senderDoc nowIso
                push dbDelete).countP (·.success)))
              ((dispatchOutcomes event userData senderDoc nowIso push
                dbDelete).countP (·.success))
              ((dispatchOutcomes event userData senderDoc nowIso push
                dbDelete).countP (fun r => !r.success))
              ((dispatchOutcomes event userData senderDoc nowIso push
                dbDelete).countP (·.autoCleanup))
              (resolveDevices userData event.deviceId).length
              (dispatchOutcomes event userData senderDoc nowIso push dbDelete),
             none) ∧
    ((decide (0 < (dispatchOutcomes event userData senderDoc nowIso push
        dbDelete).countP (·.success)) = true) ↔
      ∃ r ∈ dispatchOutcomes event userData senderDoc nowIso push dbDelete,
        r.success = true) ∧
    ((∀ r ∈ dispatchOutcomes event userData senderDoc nowIso push dbDelete,
        r.success = false) →
      decide (0 < (dispatchOutcomes event userData senderDoc nowIso push
        dbDelete).countP (·.success)) = false ∧
      (dispatchOutcomes event userData senderDoc nowIso push
        dbDelete).countP (fun r => !r.success)
        = (resolveDevices userData event.deviceId).length) := by
  have hz : ¬ (resolveDevices userData event.deviceId).length = 0 := by
    simpa [List.length_eq_zero] using h
  refine ⟨by simp [handleNotification, hz, dispatchOutcomes], ?_, ?_⟩
  · simp only [decide_eq_true_eq]
    exact List.countP_pos_iff
  · intro hall
    constructor
    · simp only [decide_eq_false_iff_not, Nat.not_lt, Nat.le_zero,
        List.countP_eq_zero]
      intro r hr
      simp [hall r hr]
    · have hlen : (dispatchOutcomes event userData senderDoc nowIso push
          dbDelete).length = (resolveDevices userData event.deviceId).length := by
        simp [dispatchOutcomes, notificationResults]
      rw [← hlen, List.countP_eq_length]
      intro r hr
      simp [hall r hr]

/-- Witness for C10: one device whose push fails with a retryable 500 on
every attempt - the invocation returns the delivered result with success
false and failed equal to the single device. -/
theorem handleNotification_completed_success_iff_witness :
    handleNotification eventW (.ok (some userW)) none "2025-10-24T00:00:00Z"
        pushFail delOk false
      = .ok (.delivered
              (decide (0 < (dispatchOutcomes eventW userW none
                "2025-10-24T00:00:00Z" pushFail delOk).countP (·.success)))
              ((dispatchOutcomes eventW userW none "2025-10-24T00:00:00Z"
                pushFail delOk).countP (·.success))
              ((dispatchOutcomes eventW userW none "2025-10-24T00:00:00Z"
                pushFail delOk).countP (fun r => !r.success))
              ((dispatchOutcomes eventW userW none "2025-10-24T00:00:00Z"
                pushFail delOk).countP (·.autoCleanup))
              (resolveDevices userW eventW.deviceId).length
              (dispatchOutcomes eventW userW none "2025-10-24T00:00:00Z"
                pushFail delOk),
             none) ∧
    ((decide (0 < (dispatchOutcomes eventW userW none "2025-10-24T00:00:00Z"
        pushFail delOk).countP (·.success)) = true) ↔
      ∃ r ∈ dispatchOutcomes eventW userW none "2025-10-24T00:00:00Z"
        pushFail delOk, r.success = true) ∧
    ((∀ r ∈ dispatchOutcomes eventW userW none "2025-10-24T00:00:00Z"
        pushFail delOk, r.success = false) →
      decide (0 < (dispatchOutcomes eventW userW none "2025-10-24T00:00:00Z"
        pushFail delOk).countP (·.success)) = false ∧
      (dispatchOutcomes eventW userW none "2025-10-24T00:00:00Z" pushFail
        delOk).countP (fun r => !r.success)
        = (resolveDevices userW eventW.deviceId).length) :=
  handleNotification_completed_success_iff eventW userW none
    "2025-10-24T00:00:00Z" pushFail delOk (by decide)

/-- Counterexample for C7: a device-gone 404 whose Firestore delete fails.
The delete is issued, but the returned outcome has autoCleanup = false (the
flag is only set when the delete succeeds), refuting the claim that
autoCleaned is true regardless of the delete's own success. -/
theorem sendToDevice_autoCleanup_needs_delete_success :
    (sendToDevice "dev1" deviceW { title := "t", body := "b", data := [] }
        (fun _ _ => .error errGone)
        (.error { code := none, message := "firestore unavailable" })).deleteIssued
      = true ∧
    (sendToDevice "dev1" deviceW { title := "t", body := "b", data := [] }
        (fun _ _ => .error errGone)
        (.error { code := none, message := "firestore unavailable" })).result
      = .ok { deviceId := "dev1", deviceName := "Pixel 8", model := "Pixel",
              success := false, messageId := none,
              error := some "User with the requested ID could not be found.",
              autoCleanup := false } :=
  ⟨rfl, rfl⟩

/-- C7 (amended): on a permanent device-gone failure the worker always issues
the registry delete and returns success = false; the outcome carries
autoCleanup = true exactly when the delete itself succeeded, and falls back
to the plain failure outcome (autoCleanup = false, provider message
preserved) when the delete fails. -/
theorem sendToDevice_device_gone_cleanup (deviceId : String) (dd : DeviceData)
    (payload : NotificationPayload)
    (push : NotificationPayload → Nat → Except JsError PushMessage)
    (dbDelete : Except JsError Unit) (e : JsError) (n : Nat)
    (hroute : jsFalsyStr dd.appwriteUserId = false)
    (hfr : fastRetry (push payload) config.MAX_RETRIES = (.error e, n))
    (hgone : isDeviceNotFound e = true) :
    (sendToDevice deviceId dd payload push dbDelete).deleteIssued = true ∧
    (dbDelete = .ok () →
      (sendToDevice deviceId dd payload push dbDelete).result
        = .ok { deviceId := deviceId, deviceName := dd.deviceName.getD "Unknown",
                model := dd.model.getD "Unknown", success := false,
                messageId := none,
                error := some "Device removed (invalid token)",
                autoCleanup := true }) ∧
    (∀ e2, dbDelete = .error e2 →
      (sendToDevice deviceId dd payload push dbDelete).result
        = .ok { deviceId := deviceId, deviceName := dd.deviceName.getD "Unknown",
                model := dd.model.getD "Unknown", success := false,
                messageId := none, error := some e.message,
                autoCleanup := false }) := by
  refine ⟨?_, ?_, ?_⟩
  · cases dbDelete <;> simp [sendToDevice, hroute, hfr, hgone]
  · intro hdel
    subst hdel
    simp [sendToDevice, hroute, hfr, hgone]
  · intro e2 hdel
    subst hdel
    simp [sendToDevice, hroute, hfr, hgone]

/-- Witness for C7 (amended): device-gone 404 with a succeeding delete gives
the auto-cleaned failure outcome. -/
theorem sendToDevice_device_gone_cleanup_witness :
    (sendToDevice "dev1" deviceW { title := "t", body := "b", data := [] }
        (fun _ _ => .error errGone) (.ok ())).deleteIssued = true ∧
    ((.ok () : Except JsError Unit) = .ok () →
      (sendToDevice "dev1" deviceW { title := "t", body := "b", data := [] }
          (fun _ _ => .error errGone) (.ok ())).result
        = .ok { deviceId := "dev1", deviceName := "Pixel 8", model := "Pixel",
                success := false, messageId := none,
                error := some "Device removed (invalid token)",
                autoCleanup := true }) ∧
    (∀ e2, (.ok () : Except JsError Unit) = .error e2 →
      (sendToDevice "dev1" deviceW { title := "t", body := "b", data := [] }
          (fun _ _ => .error errGone) (.ok ())).result
        = .ok { deviceId := "dev1", deviceName := "Pixel 8", model := "Pixel",
                success := false, messageId := none,
                error := some errGone.message, autoCleanup := false }) :=
  sendToDevice_device_gone_cleanup "dev1" deviceW
    { title := "t", body := "b", data := [] } (fun _ _ => .error errGone)
    (.ok ()) errGone 1 rfl rfl rfl

/-- Counterexample for C8: with one registered device devA and a target
device id devB that is not registered, the coordinator keeps the full device
map (the narrowing condition fails), resolves one device rather than zero,
and the invocation fans out to devA - refuting the claim that an absent
targetDeviceId is treated as no devices. -/
theorem resolveDevices_absent_target_full_fanout :
    resolveDevices userW (some "devB") = [("dev1", deviceW)] ∧
    handleNotification
        { recipientId := "user-1", senderId := none, text := some "hello",
          chatId := "chat-1", type := some "text", messageId := none,
          deviceId := some "devB" }
        (.ok (some userW)) none "2025-10-24T00:00:00Z" pushFail delOk false
      = .ok (.delivered false 0 1 0 1
              [{ deviceId := "dev1", deviceName := "Pixel 8", model := "Pixel",
                 success := false, messageId := none,
                 error := some "Internal Server Error", autoCleanup := false }],
             none) :=
  ⟨rfl, rfl⟩

/-- C8 (amended): when targetDeviceId is set but not present in the resolved
device map, the narrowing is skipped and the coordinator fans out to the full
registered set (it is not treated as an empty device set). -/
theorem resolveDevices_absent_target_ignored (u : UserData) (tid : String)
    (hne : (tid == "") = false)
    (habs : (parsedDevices u).lookup tid = none) :
    resolveDevices u (some tid) = parsedDevices u := by
  simp [resolveDevices, hne, habs]

/-- Witness for C8 (amended): target devB absent from the single-device map
leaves the full map in place. -/
theorem resolveDevices_absent_target_ignored_witness :
    resolveDevices userW (some "devB") = parsedDevices userW :=
  resolveDevices_absent_target_ignored userW "devB" rfl rfl
